import Mathlib

/-!
Shallow embedding of the forge-sdk-go client library.

The embedding covers:
* the `RenderRequest` builder state (Go pointer fields become `Option`,
  Go slices become `List`, the polymorphic `any` palette slot becomes a
  tagged variant `PaletteVal`);
* every fluent setter method of `RenderRequest`;
* `buildPayload`, which serializes the builder state into a nested
  JSON-like payload, modelled as an association list with distinct keys
  (Go `map[string]any` insertion order is irrelevant to map semantics;
  the association list follows the source's insertion order);
* `NewClient` base-URL normalization (trailing-slash stripping);
* the response/error classification performed by `Send` and `Health`,
  with the outcome of the HTTP exchange and of `json.Unmarshal` of an
  error body supplied as explicit inputs, since the transport and the
  JSON decoder are external to this library.

Go `float64` values are never inspected, compared or computed with by
this library: they are carried opaquely from a setter argument into the
payload.  They are therefore modelled by an opaque numeric carrier type
`Float64` (realized as `Int`), kept distinct from `int`-typed fields by
a separate payload constructor.
-/

namespace Forge

/-- Opaque carrier for Go `float64` values, which this library only ever
passes through unmodified. -/
abbrev Float64 := Int

/-- JSON-like wire values appearing in the render payload. -/
inductive JVal where
  | jstr : String → JVal
  | jint : Int → JVal
  | jnum : Float64 → JVal
  | jbool : Bool → JVal
  | jstrArr : List String → JVal
  | jobj : List (String × JVal) → JVal
  | jarr : List JVal → JVal

/-- The entry contributed to a payload object by one optional field:
nothing when the field is unset, a single key/value binding when set.
This is the `if r.field != nil { p[key] = *r.field }` idiom. -/
def optEntry (k : String) : Option JVal → List (String × JVal)
  | some v => [(k, v)]
  | none => []

/-- Key lookup in a payload object (association list). -/
def lookup : List (String × JVal) → String → Option JVal
  | [], _ => none
  | (k2, v) :: rest, k => if k = k2 then some v else lookup rest k

/-- Lookup of a key inside a nested object stored under `k1`. -/
def lookupIn (p : List (String × JVal)) (k1 k2 : String) : Option JVal :=
  match lookup p k1 with
  | some (.jobj o) => lookup o k2
  | _ => none

/-- Go `EmbeddedFile` from types.go: a file to embed in the PDF.
`MimeType`, `Description` and `Relationship` use the empty string as the
"unset" sentinel, exactly as the Go zero value does. -/
structure EmbeddedFile where
  Path : String
  Data : String
  MimeType : String := ""
  Description : String := ""
  Relationship : String := ""

/-- Go `BarcodeConfig` from types.go: a barcode to render onto PDF pages.
The Go field `Type` is named `btype` here (`Type` is reserved in Lean). -/
structure BarcodeConfig where
  btype : String
  data : String
  x : Option Float64 := none
  y : Option Float64 := none
  width : Option Float64 := none
  height : Option Float64 := none
  anchor : Option String := none
  foreground : Option String := none
  background : Option String := none
  drawBg : Option Bool := none
  pages : Option String := none

/-- The polymorphic palette slot (Go field `palette any`): it only ever
holds a preset name (`string`) or a custom color list (`[]string`). -/
inductive PaletteVal where
  | preset : String → PaletteVal
  | custom : List String → PaletteVal

/-- Wire form of the palette slot: a JSON string for a preset, a JSON
array of strings for a custom palette. -/
def paletteJVal : PaletteVal → JVal
  | .preset s => .jstr s
  | .custom l => .jstrArr l

/-- Go `RenderRequest` builder state from forge.go.  Each Go pointer field
becomes an `Option` (nil = `none`); `format` keeps the Go empty-string
sentinel; the two slices become lists. -/
structure RenderRequest where
  html : Option String := none
  url : Option String := none
  format : String := ""
  width : Option Int := none
  height : Option Int := none
  paper : Option String := none
  orientation : Option String := none
  margins : Option String := none
  flow : Option String := none
  density : Option Float64 := none
  background : Option String := none
  timeout : Option Int := none
  colors : Option Int := none
  palette : Option PaletteVal := none
  dither : Option String := none
  pdfTitle : Option String := none
  pdfAuthor : Option String := none
  pdfSubject : Option String := none
  pdfKeywords : Option String := none
  pdfCreator : Option String := none
  pdfBookmarks : Option Bool := none
  pdfPageNumbers : Option Bool := none
  pdfWatermarkText : Option String := none
  pdfWatermarkImage : Option String := none
  pdfWatermarkOpacity : Option Float64 := none
  pdfWatermarkRotation : Option Float64 := none
  pdfWatermarkColor : Option String := none
  pdfWatermarkFontSize : Option Float64 := none
  pdfWatermarkScale : Option Float64 := none
  pdfWatermarkLayer : Option String := none
  pdfWatermarkPages : Option String := none
  pdfStandard : Option String := none
  pdfEmbeddedFiles : List EmbeddedFile := []
  pdfBarcodes : List BarcodeConfig := []
  pdfMode : Option String := none
  pdfSignCertificate : Option String := none
  pdfSignPassword : Option String := none
  pdfSignName : Option String := none
  pdfSignReason : Option String := none
  pdfSignLocation : Option String := none
  pdfSignTimestampUrl : Option String := none
  pdfUserPassword : Option String := none
  pdfOwnerPassword : Option String := none
  pdfPermissions : Option String := none
  pdfAccessibility : Option String := none
  pdfLinearize : Option Bool := none

/-- Go `Client.RenderHTML`: a fresh request from an HTML string. -/
def renderHTML (html : String) : RenderRequest := { html := some html }

/-- Go `Client.RenderURL`: a fresh request from a URL. -/
def renderURL (url : String) : RenderRequest := { url := some url }

namespace RenderRequest

/-- Go `Format` sets the output format (Go enum `OutputFormat` is a string). -/
def Format (r : RenderRequest) (f : String) : RenderRequest := { r with format := f }

/-- Go `Width` sets the viewport width in CSS pixels. -/
def Width (r : RenderRequest) (px : Int) : RenderRequest := { r with width := some px }

/-- Go `Height` sets the viewport height in CSS pixels. -/
def Height (r : RenderRequest) (px : Int) : RenderRequest := { r with height := some px }

/-- Go `Paper` sets the paper size. -/
def Paper (r : RenderRequest) (size : String) : RenderRequest := { r with paper := some size }

/-- Go `Orientation` sets the page orient mode (Go enum is a string). -/
def Orient (r : RenderRequest) (o : String) : RenderRequest := { r with orientation := some o }

/-- Go `Margins` sets page margins. -/
def Margins (r : RenderRequest) (m : String) : RenderRequest := { r with margins := some m }

/-- Go `Flow` sets the document flow mode. -/
def Flow (r : RenderRequest) (f : String) : RenderRequest := { r with flow := some f }

/-- Go `Density` sets the output DPI. -/
def Density (r : RenderRequest) (dpi : Float64) : RenderRequest := { r with density := some dpi }

/-- Go `Background` sets the CSS background color. -/
def Background (r : RenderRequest) (color : String) : RenderRequest := { r with background := some color }

/-- Go `Timeout` sets the page load timeout in seconds. -/
def Timeout (r : RenderRequest) (seconds : Int) : RenderRequest := { r with timeout := some seconds }

/-- Go `Colors` sets the number of colors for quantization. -/
def Colors (r : RenderRequest) (n : Int) : RenderRequest := { r with colors := some n }

/-- Go `Palette` sets a built-in palette preset (stores a string in the
polymorphic slot). -/
def Palette (r : RenderRequest) (p : String) : RenderRequest :=
  { r with palette := some (.preset p) }

/-- Go `CustomPalette` sets a custom palette (stores a string list in the
polymorphic slot). -/
def CustomPalette (r : RenderRequest) (colors : List String) : RenderRequest :=
  { r with palette := some (.custom colors) }

/-- Go `Dither` sets the dithering algorithm. -/
def Dither (r : RenderRequest) (method : String) : RenderRequest := { r with dither := some method }

/-- Go `PdfTitle` sets the PDF document title metadata. -/
def PdfTitle (r : RenderRequest) (title : String) : RenderRequest := { r with pdfTitle := some title }

/-- Go `PdfAuthor` sets the PDF document author metadata. -/
def PdfAuthor (r : RenderRequest) (author : String) : RenderRequest := { r with pdfAuthor := some author }

/-- Go `PdfSubject` sets the PDF document subject metadata. -/
def PdfSubject (r : RenderRequest) (subject : String) : RenderRequest := { r with pdfSubject := some subject }

/-- Go `PdfKeywords` sets the PDF document keywords metadata. -/
def PdfKeywords (r : RenderRequest) (keywords : String) : RenderRequest := { r with pdfKeywords := some keywords }

/-- Go `PdfCreator` sets the PDF document creator metadata. -/
def PdfCreator (r : RenderRequest) (creator : String) : RenderRequest := { r with pdfCreator := some creator }

/-- Go `PdfBookmarks` enables or disables PDF bookmarks from headings. -/
def PdfBookmarks (r : RenderRequest) (enabled : Bool) : RenderRequest := { r with pdfBookmarks := some enabled }

/-- Go `PdfPageNumbers` enables or disables page-number footers. -/
def PdfPageNumbers (r : RenderRequest) (enabled : Bool) : RenderRequest := { r with pdfPageNumbers := some enabled }

/-- Go `PdfWatermarkText` sets the watermark text overlay. -/
def PdfWatermarkText (r : RenderRequest) (text : String) : RenderRequest := { r with pdfWatermarkText := some text }

/-- Go `PdfWatermarkImage` sets the watermark image (base64). -/
def PdfWatermarkImage (r : RenderRequest) (base64Data : String) : RenderRequest := { r with pdfWatermarkImage := some base64Data }

/-- Go `PdfWatermarkOpacity` sets the watermark opacity. -/
def PdfWatermarkOpacity (r : RenderRequest) (opacity : Float64) : RenderRequest := { r with pdfWatermarkOpacity := some opacity }

/-- Go `PdfWatermarkRotation` sets the watermark rot angle in degrees. -/
def PdfWatermarkRot (r : RenderRequest) (degrees : Float64) : RenderRequest := { r with pdfWatermarkRotation := some degrees }

/-- Go `PdfWatermarkColor` sets the watermark text color. -/
def PdfWatermarkColor (r : RenderRequest) (hex : String) : RenderRequest := { r with pdfWatermarkColor := some hex }

/-- Go `PdfWatermarkFontSize` sets the watermark font size. -/
def PdfWatermarkFontSize (r : RenderRequest) (size : Float64) : RenderRequest := { r with pdfWatermarkFontSize := some size }

/-- Go `PdfWatermarkScale` sets the watermark image scale. -/
def PdfWatermarkScale (r : RenderRequest) (scale : Float64) : RenderRequest := { r with pdfWatermarkScale := some scale }

/-- Go `PdfWatermarkLayer` sets the watermark layer position. -/
def PdfWatermarkLayer (r : RenderRequest) (layer : String) : RenderRequest := { r with pdfWatermarkLayer := some layer }

/-- Go `PdfStandard` sets the PDF standard compliance level. -/
def PdfStandard (r : RenderRequest) (standard : String) : RenderRequest := { r with pdfStandard := some standard }

/-- Go `PdfAttach` adds an embedded file; the option functions mutate the
entry before it is appended, exactly like the Go variadic options. -/
def PdfAttach (r : RenderRequest) (path data : String)
    (opts : List (EmbeddedFile → EmbeddedFile) := []) : RenderRequest :=
  { r with pdfEmbeddedFiles :=
      r.pdfEmbeddedFiles ++ [opts.foldl (fun ef opt => opt ef) { Path := path, Data := data }] }

/-- Go `PdfWatermarkPages` sets which pages the watermark applies to. -/
def PdfWatermarkPages (r : RenderRequest) (pages : String) : RenderRequest := { r with pdfWatermarkPages := some pages }

/-- Go `PdfBarcode` adds a barcode with the given type and data. -/
def PdfBarcode (r : RenderRequest) (barcodeType data : String) : RenderRequest :=
  { r with pdfBarcodes := r.pdfBarcodes ++ [{ btype := barcodeType, data := data }] }

/-- Go `PdfBarcodeWith` adds a fully-configured barcode. -/
def PdfBarcodeWith (r : RenderRequest) (config : BarcodeConfig) : RenderRequest :=
  { r with pdfBarcodes := r.pdfBarcodes ++ [config] }

/-- Go `PdfMode` sets the PDF rendering mode. -/
def PdfMode (r : RenderRequest) (mode : String) : RenderRequest := { r with pdfMode := some mode }

/-- Go `PdfSignCertificate` sets the base64 PKCS#12 certificate. -/
def PdfSignCertificate (r : RenderRequest) (data : String) : RenderRequest := { r with pdfSignCertificate := some data }

/-- Go `PdfSignPassword` sets the certificate password. -/
def PdfSignPassword (r : RenderRequest) (password : String) : RenderRequest := { r with pdfSignPassword := some password }

/-- Go `PdfSignName` sets the signer name. -/
def PdfSignName (r : RenderRequest) (name : String) : RenderRequest := { r with pdfSignName := some name }

/-- Go `PdfSignReason` sets the signature reason. -/
def PdfSignReason (r : RenderRequest) (reason : String) : RenderRequest := { r with pdfSignReason := some reason }

/-- Go `PdfSignLocation` sets the signature location. -/
def PdfSignLocation (r : RenderRequest) (location : String) : RenderRequest := { r with pdfSignLocation := some location }

/-- Go `PdfSignTimestampUrl` sets the RFC 3161 timestamp server URL. -/
def PdfSignTimestampUrl (r : RenderRequest) (url : String) : RenderRequest := { r with pdfSignTimestampUrl := some url }

/-- Go `PdfUserPassword` sets the user password for PDF encryption. -/
def PdfUserPassword (r : RenderRequest) (password : String) : RenderRequest := { r with pdfUserPassword := some password }

/-- Go `PdfOwnerPassword` sets the owner password for PDF encryption. -/
def PdfOwnerPassword (r : RenderRequest) (password : String) : RenderRequest := { r with pdfOwnerPassword := some password }

/-- Go `PdfPermissions` sets the PDF permission flags. -/
def PdfPermissions (r : RenderRequest) (permissions : String) : RenderRequest := { r with pdfPermissions := some permissions }

/-- Go `PdfAccessibility` sets the PDF accessibility compliance level. -/
def PdfAccessibility (r : RenderRequest) (level : String) : RenderRequest := { r with pdfAccessibility := some level }

/-- Go `PdfLinearize` enables or disables PDF linearization. -/
def PdfLinearize (r : RenderRequest) (enabled : Bool) : RenderRequest := { r with pdfLinearize := some enabled }

end RenderRequest

/-- The nested `quantize` object assembled by `buildPayload`. -/
def quantizeObj (r : RenderRequest) : List (String × JVal) :=
  optEntry ("colors") (r.colors.map .jint) ++
  optEntry ("palette") (r.palette.map paletteJVal) ++
  optEntry ("dither") (r.dither.map .jstr)

/-- Guard of the `quantize` group in `buildPayload`:
`r.colors != nil || r.palette != nil || r.dither != nil`. -/
def quantizeTouched (r : RenderRequest) : Bool :=
  r.colors.isSome || r.palette.isSome || r.dither.isSome

/-- Go `hasWatermark` from `buildPayload`. -/
def hasWatermark (r : RenderRequest) : Bool :=
  r.pdfWatermarkText.isSome || r.pdfWatermarkImage.isSome ||
  r.pdfWatermarkOpacity.isSome || r.pdfWatermarkRotation.isSome ||
  r.pdfWatermarkColor.isSome || r.pdfWatermarkFontSize.isSome ||
  r.pdfWatermarkScale.isSome || r.pdfWatermarkLayer.isSome ||
  r.pdfWatermarkPages.isSome

/-- Go `hasSignature` from `buildPayload`. -/
def hasSignature (r : RenderRequest) : Bool :=
  r.pdfSignCertificate.isSome || r.pdfSignPassword.isSome ||
  r.pdfSignName.isSome || r.pdfSignReason.isSome || r.pdfSignLocation.isSome ||
  r.pdfSignTimestampUrl.isSome

/-- Go `hasEncryption` from `buildPayload`. -/
def hasEncryption (r : RenderRequest) : Bool :=
  r.pdfUserPassword.isSome || r.pdfOwnerPassword.isSome ||
  r.pdfPermissions.isSome

/-- The nested `watermark` object assembled by `buildPayload`. -/
def watermarkObj (r : RenderRequest) : List (String × JVal) :=
  optEntry ("text") (r.pdfWatermarkText.map .jstr) ++
  optEntry ("image_data") (r.pdfWatermarkImage.map .jstr) ++
  optEntry ("opacity") (r.pdfWatermarkOpacity.map .jnum) ++
  optEntry ("rotation") (r.pdfWatermarkRotation.map .jnum) ++
  optEntry ("color") (r.pdfWatermarkColor.map .jstr) ++
  optEntry ("font_size") (r.pdfWatermarkFontSize.map .jnum) ++
  optEntry ("scale") (r.pdfWatermarkScale.map .jnum) ++
  optEntry ("layer") (r.pdfWatermarkLayer.map .jstr) ++
  optEntry ("pages") (r.pdfWatermarkPages.map .jstr)

/-- Wire form of one embedded file: `path` and `data` always present,
`mime_type` / `description` / `relationship` only when non-empty. -/
def embeddedFileEntry (ef : EmbeddedFile) : JVal :=
  .jobj ([("path", .jstr ef.Path), ("data", .jstr ef.Data)] ++
    (if ef.MimeType = "" then [] else [("mime_type", .jstr ef.MimeType)]) ++
    (if ef.Description = "" then [] else [("description", .jstr ef.Description)]) ++
    (if ef.Relationship = "" then [] else [("relationship", .jstr ef.Relationship)]))

/-- Wire form of one barcode: `type` and `data` always present, each
optional field only when set. -/
def barcodeEntry (bc : BarcodeConfig) : JVal :=
  .jobj ([("type", .jstr bc.btype), ("data", .jstr bc.data)] ++
    optEntry ("x") (bc.x.map .jnum) ++
    optEntry ("y") (bc.y.map .jnum) ++
    optEntry ("width") (bc.width.map .jnum) ++
    optEntry ("height") (bc.height.map .jnum) ++
    optEntry ("anchor") (bc.anchor.map .jstr) ++
    optEntry ("foreground") (bc.foreground.map .jstr) ++
    optEntry ("background") (bc.background.map .jstr) ++
    optEntry ("draw_background") (bc.drawBg.map .jbool) ++
    optEntry ("pages") (bc.pages.map .jstr))

/-- The nested `signature` object assembled by `buildPayload`. -/
def signatureObj (r : RenderRequest) : List (String × JVal) :=
  optEntry ("certificate_data") (r.pdfSignCertificate.map .jstr) ++
  optEntry ("password") (r.pdfSignPassword.map .jstr) ++
  optEntry ("signer_name") (r.pdfSignName.map .jstr) ++
  optEntry ("reason") (r.pdfSignReason.map .jstr) ++
  optEntry ("location") (r.pdfSignLocation.map .jstr) ++
  optEntry ("timestamp_url") (r.pdfSignTimestampUrl.map .jstr)

/-- The nested `encryption` object assembled by `buildPayload`. -/
def encryptionObj (r : RenderRequest) : List (String × JVal) :=
  optEntry ("user_password") (r.pdfUserPassword.map .jstr) ++
  optEntry ("owner_password") (r.pdfOwnerPassword.map .jstr) ++
  optEntry ("permissions") (r.pdfPermissions.map .jstr)

/-- Guard of the `pdf` group in `buildPayload`: the disjunction over all
pdf-domain fields, in source order (`len(..) > 0` on the two slices is
written as non-emptiness). -/
def pdfTouched (r : RenderRequest) : Bool :=
  r.pdfTitle.isSome || r.pdfAuthor.isSome || r.pdfSubject.isSome ||
  r.pdfKeywords.isSome || r.pdfCreator.isSome || r.pdfBookmarks.isSome ||
  r.pdfPageNumbers.isSome || hasWatermark r ||
  r.pdfStandard.isSome || !r.pdfEmbeddedFiles.isEmpty || !r.pdfBarcodes.isEmpty ||
  r.pdfMode.isSome || hasSignature r || hasEncryption r || r.pdfAccessibility.isSome ||
  r.pdfLinearize.isSome

/-- The nested `pdf` object assembled by `buildPayload`, entries in
source insertion order. -/
def pdfObj (r : RenderRequest) : List (String × JVal) :=
  optEntry ("title") (r.pdfTitle.map .jstr) ++
  optEntry ("author") (r.pdfAuthor.map .jstr) ++
  optEntry ("subject") (r.pdfSubject.map .jstr) ++
  optEntry ("keywords") (r.pdfKeywords.map .jstr) ++
  optEntry ("creator") (r.pdfCreator.map .jstr) ++
  optEntry ("bookmarks") (r.pdfBookmarks.map .jbool) ++
  optEntry ("page_numbers") (r.pdfPageNumbers.map .jbool) ++
  (if hasWatermark r then [("watermark", .jobj (watermarkObj r))] else []) ++
  optEntry ("standard") (r.pdfStandard.map .jstr) ++
  (if r.pdfEmbeddedFiles.isEmpty then []
   else [("embedded_files", .jarr (r.pdfEmbeddedFiles.map embeddedFileEntry))]) ++
  (if r.pdfBarcodes.isEmpty then []
   else [("barcodes", .jarr (r.pdfBarcodes.map barcodeEntry))]) ++
  optEntry ("mode") (r.pdfMode.map .jstr) ++
  (if hasSignature r then [("signature", .jobj (signatureObj r))] else []) ++
  (if hasEncryption r then [("encryption", .jobj (encryptionObj r))] else []) ++
  optEntry ("accessibility") (r.pdfAccessibility.map .jstr) ++
  optEntry ("linearize") (r.pdfLinearize.map .jbool)

/-- Go `buildPayload` from forge.go: serializes the builder state into the
wire payload.  Entries appear in source insertion order; every key is
inserted at most once, so the association list is a faithful model of
the Go `map[string]any`. -/
def buildPayload (r : RenderRequest) : List (String × JVal) :=
  optEntry ("html") (r.html.map .jstr) ++
  optEntry ("url") (r.url.map .jstr) ++
  [("format", .jstr (if r.format = "" then "pdf" else r.format))] ++
  optEntry ("width") (r.width.map .jint) ++
  optEntry ("height") (r.height.map .jint) ++
  optEntry ("paper") (r.paper.map .jstr) ++
  optEntry ("orientation") (r.orientation.map .jstr) ++
  optEntry ("margins") (r.margins.map .jstr) ++
  optEntry ("flow") (r.flow.map .jstr) ++
  optEntry ("density") (r.density.map .jnum) ++
  optEntry ("background") (r.background.map .jstr) ++
  optEntry ("timeout") (r.timeout.map .jint) ++
  (if quantizeTouched r then [("quantize", .jobj (quantizeObj r))] else []) ++
  (if pdfTouched r then [("pdf", .jobj (pdfObj r))] else [])

/-! ### Client construction and endpoint paths -/

/-- The trailing-slash stripping loop of `NewClient`, phrased on the
reversed character list: remove leading slashes of the reversal. -/
def dropLeadingSlashes : List Char → List Char
  | [] => []
  | c :: cs => if c = '/' then dropLeadingSlashes cs else c :: cs

/-- Go `NewClient`'s base-URL normalization: strip all trailing `/`. -/
def stripTrailingSlashes (s : String) : String :=
  ⟨(dropLeadingSlashes s.data.reverse).reverse⟩

/-- The `Client` state relevant to URL construction. -/
structure Client where
  baseURL : String

/-- Go `NewClient` stores the normalized base URL. -/
def NewClient (baseURL : String) : Client :=
  ⟨stripTrailingSlashes baseURL⟩

/-- The URL `Send` posts to: `{base}/render`. -/
def renderEndpoint (c : Client) : String := c.baseURL ++ "/render"

/-- The URL `Health` gets: `{base}/health`. -/
def healthEndpoint (c : Client) : String := c.baseURL ++ "/health"

/-- True exactly when the string's last character is `/`. -/
def endsWithSlash (s : String) : Bool :=
  match s.data.getLast? with
  | some c => c == '/'
  | none => false

/-! ### Response / error classification -/

/-- Go `http.StatusOK`. -/
def StatusOK : Nat := 200

/-- Go `ServerError` from error.go. -/
structure ServerError where
  StatusCode : Nat
  Message : String

/-- Go `ConnectionError` from error.go; the wrapped cause is opaque. -/
structure ConnectionError where
  Cause : String

/-- The error values `Send` and `Health` can return: the two typed
errors of error.go plus the `fmt.Errorf`-wrapped incidental failures. -/
inductive ForgeError where
  | server : ServerError → ForgeError
  | connection : ConnectionError → ForgeError
  | wrapped : String → ForgeError

/-- Outcome of the HTTP exchange performed inside `Send`, as observed by
the classification code after `httpClient.Do` and `io.ReadAll`: either
the transport failed before a response was obtained, or a response was
received but reading its body failed, or a response with a status code
and a fully-read body was obtained. -/
inductive Exchange where
  | transportFailure (cause : String)
  | readFailure (cause : String)
  | response (status : Nat) (body : List Nat)

/-- The classification tail of `Send` (forge.go lines 1044-1070).
`parseErrField` abstracts `json.Unmarshal` of the body into
`struct { Error string }`: `none` when unmarshalling fails, `some e`
when it succeeds with `Error` field `e` (possibly empty). -/
def sendClassify (parseErrField : List Nat → Option String) :
    Exchange → Except ForgeError (List Nat)
  | .transportFailure cause => .error (.connection ⟨cause⟩)
  | .readFailure cause => .error (.wrapped ("forge: read body: " ++ cause))
  | .response status data =>
      if status ≠ StatusOK then
        let msg :=
          match parseErrField data with
          | some e => if e ≠ "" then e else "HTTP " ++ toString status
          | none => "HTTP " ++ toString status
        .error (.server ⟨status, msg⟩)
      else
        .ok data

/-- Outcome of the HTTP exchange performed inside `Health`. -/
inductive HealthExchange where
  | transportFailure (cause : String)
  | response (status : Nat)

/-- The classification tail of `Health` (forge.go lines 437-442):
`(resp.StatusCode == http.StatusOK, nil)` on a response, a
`ConnectionError` on transport failure. -/
def healthClassify : HealthExchange → Bool × Option ForgeError
  | .transportFailure cause => (false, some (.connection ⟨cause⟩))
  | .response status => (status == StatusOK, none)

/-- Whether a `Send` outcome is a `ServerError`. -/
def resultIsServerError : Except ForgeError (List Nat) → Bool
  | .error (.server _) => true
  | _ => false

/-- Whether a `Health` error outcome is a `ServerError`. -/
def healthErrIsServerError : Bool × Option ForgeError → Bool
  | (_, some (.server _)) => true
  | _ => false

/-! ### Lookup lemmas for payload association lists -/

theorem lookup_optEntry_skip {k k2 : String} (h : ¬ k = k2) (o : Option JVal)
    (rest : List (String × JVal)) :
    lookup (optEntry k2 o ++ rest) k = lookup rest k := by
  cases o <;> simp [optEntry, lookup, h]

theorem lookup_optEntry_found (k : String) (o : Option JVal) (rest : List (String × JVal))
    (hrest : lookup rest k = none) :
    lookup (optEntry k o ++ rest) k = o := by
  cases o <;> simp [optEntry, lookup, hrest]

theorem lookup_optEntry_last_skip {k k2 : String} (h : ¬ k = k2) (o : Option JVal) :
    lookup (optEntry k2 o) k = none := by
  cases o <;> simp [optEntry, lookup, h]

theorem lookup_optEntry_last_found (k : String) (o : Option JVal) :
    lookup (optEntry k o) k = o := by
  cases o <;> simp [optEntry, lookup]

theorem lookup_cons_skip {k k2 : String} (h : ¬ k = k2) (v : JVal)
    (rest : List (String × JVal)) :
    lookup ((k2, v) :: rest) k = lookup rest k := by
  simp [lookup, h]

theorem lookup_cons_self (k : String) (v : JVal) (rest : List (String × JVal)) :
    lookup ((k, v) :: rest) k = some v := by
  simp [lookup]

theorem lookup_ifEntry_skip {k k2 : String} (h : ¬ k = k2) (c : Prop) [Decidable c]
    (v : JVal) (rest : List (String × JVal)) :
    lookup ((if c then [(k2, v)] else []) ++ rest) k = lookup rest k := by
  by_cases hc : c <;> simp [hc, lookup, h]

theorem lookup_ifEntry_found (k : String) (c : Prop) [Decidable c] (v : JVal)
    (rest : List (String × JVal)) (hrest : lookup rest k = none) :
    lookup ((if c then [(k, v)] else []) ++ rest) k = if c then some v else none := by
  by_cases hc : c <;> simp [hc, lookup, hrest]

theorem lookup_ifEntry_last_skip {k k2 : String} (h : ¬ k = k2) (c : Prop) [Decidable c]
    (v : JVal) :
    lookup (if c then [(k2, v)] else []) k = none := by
  by_cases hc : c <;> simp [hc, lookup, h]

theorem lookup_ifEntry_last_found (k : String) (c : Prop) [Decidable c] (v : JVal) :
    lookup (if c then [(k, v)] else []) k = if c then some v else none := by
  by_cases hc : c <;> simp [hc, lookup]

theorem lookup_ifEntryNeg_skip {k k2 : String} (h : ¬ k = k2) (c : Prop) [Decidable c]
    (v : JVal) (rest : List (String × JVal)) :
    lookup ((if c then [] else [(k2, v)]) ++ rest) k = lookup rest k := by
  by_cases hc : c <;> simp [hc, lookup, h]

theorem lookup_ifEntryNeg_found (k : String) (c : Prop) [Decidable c] (v : JVal)
    (rest : List (String × JVal)) (hrest : lookup rest k = none) :
    lookup ((if c then [] else [(k, v)]) ++ rest) k = if c then none else some v := by
  by_cases hc : c <;> simp [hc, lookup, hrest]

/-! ### Lookup of the top-level payload keys -/

theorem lookup_format (r : RenderRequest) :
    lookup (buildPayload r) ("format")
      = some (.jstr (if r.format = "" then "pdf" else r.format)) := by
  unfold buildPayload
  simp [lookup_optEntry_skip, lookup_cons_self]

theorem lookup_quantize (r : RenderRequest) :
    lookup (buildPayload r) ("quantize")
      = if quantizeTouched r then some (.jobj (quantizeObj r)) else none := by
  unfold buildPayload
  simp [lookup_optEntry_skip, lookup_cons_skip, lookup_ifEntry_found,
    lookup_ifEntry_last_skip]

theorem lookup_pdf (r : RenderRequest) :
    lookup (buildPayload r) ("pdf")
      = if pdfTouched r then some (.jobj (pdfObj r)) else none := by
  unfold buildPayload
  simp [lookup_optEntry_skip, lookup_cons_skip, lookup_ifEntry_skip,
    lookup_ifEntry_last_found]

theorem payload_quantize_isSome (r : RenderRequest) :
    (lookup (buildPayload r) ("quantize")).isSome = quantizeTouched r := by
  rw [lookup_quantize]
  cases h : quantizeTouched r <;> simp

theorem payload_pdf_isSome (r : RenderRequest) :
    (lookup (buildPayload r) ("pdf")).isSome = pdfTouched r := by
  rw [lookup_pdf]
  cases h : pdfTouched r <;> simp

theorem lookupIn_quantize (r : RenderRequest) (k2 : String) :
    lookupIn (buildPayload r) ("quantize") k2
      = if quantizeTouched r then lookup (quantizeObj r) k2 else none := by
  unfold lookupIn
  rw [lookup_quantize]
  cases h : quantizeTouched r <;> simp

theorem lookupIn_pdf (r : RenderRequest) (k2 : String) :
    lookupIn (buildPayload r) ("pdf") k2
      = if pdfTouched r then lookup (pdfObj r) k2 else none := by
  unfold lookupIn
  rw [lookup_pdf]
  cases h : pdfTouched r <;> simp

theorem lookupIn_quantize_of (r : RenderRequest) (k2 : String) (v : Option JVal)
    (hv : lookup (quantizeObj r) k2 = v) (hnone : quantizeTouched r = false → v = none) :
    lookupIn (buildPayload r) ("quantize") k2 = v := by
  rw [lookupIn_quantize]
  cases h : quantizeTouched r
  · simp [hnone h]
  · simp [hv]

theorem lookupIn_pdf_of (r : RenderRequest) (k2 : String) (v : Option JVal)
    (hv : lookup (pdfObj r) k2 = v) (hnone : pdfTouched r = false → v = none) :
    lookupIn (buildPayload r) ("pdf") k2 = v := by
  rw [lookupIn_pdf]
  cases h : pdfTouched r
  · simp [hnone h]
  · simp [hv]

/-! ### Members of the quantize group -/

theorem payload_quantize_colors (r : RenderRequest) :
    lookupIn (buildPayload r) ("quantize") ("colors") = r.colors.map .jint := by
  refine lookupIn_quantize_of r _ _ ?_ ?_
  · unfold quantizeObj
    simp [lookup_optEntry_found, lookup_optEntry_skip, lookup_optEntry_last_skip]
  · intro h
    cases hc : r.colors with
    | none => simp
    | some a => simp [quantizeTouched, hc] at h

theorem payload_quantize_palette (r : RenderRequest) :
    lookupIn (buildPayload r) ("quantize") ("palette") = r.palette.map paletteJVal := by
  refine lookupIn_quantize_of r _ _ ?_ ?_
  · unfold quantizeObj
    simp [lookup_optEntry_found, lookup_optEntry_skip, lookup_optEntry_last_skip]
  · intro h
    cases hc : r.palette with
    | none => simp
    | some a => simp [quantizeTouched, hc] at h

theorem payload_quantize_dither (r : RenderRequest) :
    lookupIn (buildPayload r) ("quantize") ("dither") = r.dither.map .jstr := by
  refine lookupIn_quantize_of r _ _ ?_ ?_
  · unfold quantizeObj
    simp [lookup_optEntry_skip, lookup_optEntry_last_found]
  · intro h
    cases hc : r.dither with
    | none => simp
    | some a => simp [quantizeTouched, hc] at h

/-! ### Members of the pdf group -/

theorem payload_pdf_title (r : RenderRequest) :
    lookupIn (buildPayload r) ("pdf") ("title") = r.pdfTitle.map .jstr := by
  refine lookupIn_pdf_of r _ _ ?_ ?_
  · unfold pdfObj
    simp [lookup_optEntry_skip, lookup_optEntry_found, lookup_optEntry_last_skip,
      lookup_ifEntry_skip, lookup_ifEntryNeg_skip]
  · intro h
    cases hc : r.pdfTitle with
    | none => simp
    | some a => simp [pdfTouched, hc] at h

theorem payload_pdf_author (r : RenderRequest) :
    lookupIn (buildPayload r) ("pdf") ("author") = r.pdfAuthor.map .jstr := by
  refine lookupIn_pdf_of r _ _ ?_ ?_
  · unfold pdfObj
    simp [lookup_optEntry_skip, lookup_optEntry_found, lookup_optEntry_last_skip,
      lookup_ifEntry_skip, lookup_ifEntryNeg_skip]
  · intro h
    cases hc : r.pdfAuthor with
    | none => simp
    | some a => simp [pdfTouched, hc] at h

theorem payload_pdf_subject (r : RenderRequest) :
    lookupIn (buildPayload r) ("pdf") ("subject") = r.pdfSubject.map .jstr := by
  refine lookupIn_pdf_of r _ _ ?_ ?_
  · unfold pdfObj
    simp [lookup_optEntry_skip, lookup_optEntry_found, lookup_optEntry_last_skip,
      lookup_ifEntry_skip, lookup_ifEntryNeg_skip]
  · intro h
    cases hc : r.pdfSubject with
    | none => simp
    | some a => simp [pdfTouched, hc] at h

theorem payload_pdf_keywords (r : RenderRequest) :
    lookupIn (buildPayload r) ("pdf") ("keywords") = r.pdfKeywords.map .jstr := by
  refine lookupIn_pdf_of r _ _ ?_ ?_
  · unfold pdfObj
    simp [lookup_optEntry_skip, lookup_optEntry_found, lookup_optEntry_last_skip,
      lookup_ifEntry_skip, lookup_ifEntryNeg_skip]
  · intro h
    cases hc : r.pdfKeywords with
    | none => simp
    | some a => simp [pdfTouched, hc] at h

theorem payload_pdf_creator (r : RenderRequest) :
    lookupIn (buildPayload r) ("pdf") ("creator") = r.pdfCreator.map .jstr := by
  refine lookupIn_pdf_of r _ _ ?_ ?_
  · unfold pdfObj
    simp [lookup_optEntry_skip, lookup_optEntry_found, lookup_optEntry_last_skip,
      lookup_ifEntry_skip, lookup_ifEntryNeg_skip]
  · intro h
    cases hc : r.pdfCreator with
    | none => simp
    | some a => simp [pdfTouched, hc] at h

theorem payload_pdf_bookmarks (r : RenderRequest) :
    lookupIn (buildPayload r) ("pdf") ("bookmarks") = r.pdfBookmarks.map .jbool := by
  refine lookupIn_pdf_of r _ _ ?_ ?_
  · unfold pdfObj
    simp [lookup_optEntry_skip, lookup_optEntry_found, lookup_optEntry_last_skip,
      lookup_ifEntry_skip, lookup_ifEntryNeg_skip]
  · intro h
    cases hc : r.pdfBookmarks with
    | none => simp
    | some a => simp [pdfTouched, hc] at h

theorem payload_pdf_pageNumbers (r : RenderRequest) :
    lookupIn (buildPayload r) ("pdf") ("page_numbers") = r.pdfPageNumbers.map .jbool := by
  refine lookupIn_pdf_of r _ _ ?_ ?_
  · unfold pdfObj
    simp [lookup_optEntry_skip, lookup_optEntry_found, lookup_optEntry_last_skip,
      lookup_ifEntry_skip, lookup_ifEntryNeg_skip]
  · intro h
    cases hc : r.pdfPageNumbers with
    | none => simp
    | some a => simp [pdfTouched, hc] at h

theorem payload_pdf_watermark (r : RenderRequest) :
    lookupIn (buildPayload r) ("pdf") ("watermark")
      = if hasWatermark r then some (.jobj (watermarkObj r)) else none := by
  refine lookupIn_pdf_of r _ _ ?_ ?_
  · unfold pdfObj
    simp [lookup_optEntry_skip, lookup_optEntry_last_skip, lookup_ifEntry_found,
      lookup_ifEntry_skip, lookup_ifEntryNeg_skip]
  · intro h
    cases hw : hasWatermark r with
    | false => simp
    | true => simp [pdfTouched, hw] at h

theorem payload_pdf_standard (r : RenderRequest) :
    lookupIn (buildPayload r) ("pdf") ("standard") = r.pdfStandard.map .jstr := by
  refine lookupIn_pdf_of r _ _ ?_ ?_
  · unfold pdfObj
    simp [lookup_optEntry_skip, lookup_optEntry_found, lookup_optEntry_last_skip,
      lookup_ifEntry_skip, lookup_ifEntryNeg_skip]
  · intro h
    cases hc : r.pdfStandard with
    | none => simp
    | some a => simp [pdfTouched, hc] at h

theorem payload_pdf_embedded (r : RenderRequest) :
    lookupIn (buildPayload r) ("pdf") ("embedded_files")
      = if r.pdfEmbeddedFiles.isEmpty then none
        else some (.jarr (r.pdfEmbeddedFiles.map embeddedFileEntry)) := by
  refine lookupIn_pdf_of r _ _ ?_ ?_
  · unfold pdfObj
    simp [lookup_optEntry_skip, lookup_optEntry_last_skip, lookup_ifEntry_skip,
      lookup_ifEntryNeg_found, lookup_ifEntryNeg_skip]
  · intro h
    cases he : r.pdfEmbeddedFiles.isEmpty with
    | true => simp [he]
    | false => simp [pdfTouched, he] at h

theorem payload_pdf_barcodes (r : RenderRequest) :
    lookupIn (buildPayload r) ("pdf") ("barcodes")
      = if r.pdfBarcodes.isEmpty then none
        else some (.jarr (r.pdfBarcodes.map barcodeEntry)) := by
  refine lookupIn_pdf_of r _ _ ?_ ?_
  · unfold pdfObj
    simp [lookup_optEntry_skip, lookup_optEntry_last_skip, lookup_ifEntry_skip,
      lookup_ifEntryNeg_found, lookup_ifEntryNeg_skip]
  · intro h
    cases he : r.pdfBarcodes.isEmpty with
    | true => simp [he]
    | false => simp [pdfTouched, he] at h

theorem payload_pdf_mode (r : RenderRequest) :
    lookupIn (buildPayload r) ("pdf") ("mode") = r.pdfMode.map .jstr := by
  refine lookupIn_pdf_of r _ _ ?_ ?_
  · unfold pdfObj
    simp [lookup_optEntry_skip, lookup_optEntry_found, lookup_optEntry_last_skip,
      lookup_ifEntry_skip, lookup_ifEntryNeg_skip]
  · intro h
    cases hc : r.pdfMode with
    | none => simp
    | some a => simp [pdfTouched, hc] at h

theorem payload_pdf_signature (r : RenderRequest) :
    lookupIn (buildPayload r) ("pdf") ("signature")
      = if hasSignature r then some (.jobj (signatureObj r)) else none := by
  refine lookupIn_pdf_of r _ _ ?_ ?_
  · unfold pdfObj
    simp [lookup_optEntry_skip, lookup_optEntry_last_skip, lookup_ifEntry_found,
      lookup_ifEntry_skip, lookup_ifEntryNeg_skip]
  · intro h
    cases hw : hasSignature r with
    | false => simp
    | true => simp [pdfTouched, hw] at h

theorem payload_pdf_encryption (r : RenderRequest) :
    lookupIn (buildPayload r) ("pdf") ("encryption")
      = if hasEncryption r then some (.jobj (encryptionObj r)) else none := by
  refine lookupIn_pdf_of r _ _ ?_ ?_
  · unfold pdfObj
    simp [lookup_optEntry_skip, lookup_optEntry_last_skip, lookup_ifEntry_found,
      lookup_ifEntry_skip, lookup_ifEntryNeg_skip]
  · intro h
    cases hw : hasEncryption r with
    | false => simp
    | true => simp [pdfTouched, hw] at h

theorem payload_pdf_accessibility (r : RenderRequest) :
    lookupIn (buildPayload r) ("pdf") ("accessibility") = r.pdfAccessibility.map .jstr := by
  refine lookupIn_pdf_of r _ _ ?_ ?_
  · unfold pdfObj
    simp [lookup_optEntry_skip, lookup_optEntry_found, lookup_optEntry_last_skip,
      lookup_ifEntry_skip, lookup_ifEntryNeg_skip]
  · intro h
    cases hc : r.pdfAccessibility with
    | none => simp
    | some a => simp [pdfTouched, hc] at h

theorem payload_pdf_linearize (r : RenderRequest) :
    lookupIn (buildPayload r) ("pdf") ("linearize") = r.pdfLinearize.map .jbool := by
  refine lookupIn_pdf_of r _ _ ?_ ?_
  · unfold pdfObj
    simp [lookup_optEntry_skip, lookup_optEntry_last_found, lookup_ifEntry_skip,
      lookup_ifEntryNeg_skip]
  · intro h
    cases hc : r.pdfLinearize with
    | none => simp
    | some a => simp [pdfTouched, hc] at h

/-! ### Base-URL normalization lemmas -/

theorem dropLeadingSlashes_head (l : List Char) :
    (dropLeadingSlashes l).head? ≠ some '/' := by
  induction l with
  | nil => simp [dropLeadingSlashes]
  | cons c cs ih =>
    by_cases hc : c = '/'
    · simpa [dropLeadingSlashes, hc] using ih
    · simp [dropLeadingSlashes, hc]

theorem strip_append_slash (base : String) :
    stripTrailingSlashes (base ++ "/") = stripTrailingSlashes base := by
  unfold stripTrailingSlashes
  rw [String.data_append base "/"]
  rw [List.reverse_append]
  simp [dropLeadingSlashes]

theorem endsWithSlash_strip (s : String) :
    endsWithSlash (stripTrailingSlashes s) = false := by
  unfold endsWithSlash stripTrailingSlashes
  rw [show (String.mk ((dropLeadingSlashes s.data.reverse).reverse)).data
      = (dropLeadingSlashes s.data.reverse).reverse from rfl]
  rw [List.getLast?_reverse]
  cases hh : (dropLeadingSlashes s.data.reverse).head? with
  | none => rfl
  | some c =>
    have hc : ¬ c = '/' := by
      intro hc
      exact dropLeadingSlashes_head (s.data.reverse) (by rw [hh, hc])
    simp [hc]

/-! ### Claim theorems -/

/-- Claim C2: a response with status exactly 200 makes `Send` return the
full body bytes unmodified with no error; any other status yields a
`ServerError` carrying that status code, whose message is the body's
parsed JSON `error` field when `json.Unmarshal` succeeds with a
non-empty field and the fallback string `HTTP <status>` otherwise, and
the body bytes are not returned. -/
theorem send_response_classification (parse : List Nat → Option String)
    (status : Nat) (body : List Nat) :
    sendClassify parse (.response status body)
      = if status = 200 then .ok body
        else .error (.server ⟨status,
          match parse body with
          | some e => if e = "" then "HTTP " ++ toString status else e
          | none => "HTTP " ++ toString status⟩) := by
  by_cases hs : status = 200
  · simp [sendClassify, StatusOK, hs]
  · cases pe : parse body with
    | none => simp [sendClassify, StatusOK, hs, pe]
    | some e => by_cases he : e = "" <;> simp [sendClassify, StatusOK, hs, pe, he]

/-- Claim C3: a transport-level failure of the exchange makes `Send`
return a `ConnectionError` wrapping the underlying cause and no bytes;
it never returns a `ServerError` in that case. -/
theorem send_transport_failure_classification (parse : List Nat → Option String)
    (cause : String) :
    sendClassify parse (.transportFailure cause) = .error (.connection ⟨cause⟩)
  ∧ resultIsServerError (sendClassify parse (.transportFailure cause)) = false :=
  ⟨rfl, rfl⟩

/-- Claim C9: a transport failure makes `Health` return
`(false, ConnectionError)` and never a `ServerError`; a received
response yields `(true, nil)` exactly when the status is 200 and
`(false, nil)` for any other status. -/
theorem health_classification (cause : String) (status : Nat) :
    healthClassify (.transportFailure cause) = (false, some (.connection ⟨cause⟩))
  ∧ healthErrIsServerError (healthClassify (.transportFailure cause)) = false
  ∧ healthClassify (.response status)
      = if status = 200 then (true, none) else (false, none) := by
  refine ⟨rfl, rfl, ?_⟩
  by_cases hs : status = 200 <;> simp [healthClassify, StatusOK, hs]

/-- Claim C4: a request on which only the source is set produces a
payload with exactly two keys: the source field and `format = "pdf"`,
with no nested group keys. -/
theorem minimal_payload_exact (h u : String) :
    buildPayload (renderHTML h) = [("html", .jstr h), ("format", .jstr ("pdf"))]
  ∧ buildPayload (renderURL u) = [("url", .jstr u), ("format", .jstr ("pdf"))] :=
  ⟨rfl, rfl⟩

/-- Claim C5: whichever of `Palette` / `CustomPalette` is called last
fully determines `quantize.palette`: a string after `Palette`, a string
array after `CustomPalette`; the earlier value is overwritten. -/
theorem palette_last_write_wins (r : RenderRequest) (p : String) (cs : List String) :
    lookupIn (buildPayload ((r.Palette p).CustomPalette cs)) ("quantize") ("palette")
      = some (.jstrArr cs)
  ∧ lookupIn (buildPayload ((r.CustomPalette cs).Palette p)) ("quantize") ("palette")
      = some (.jstr p) :=
  ⟨payload_quantize_palette _, payload_quantize_palette _⟩

/-- Claim C7: `PdfBookmarks(false)` makes the `pdf` group present with
`pdf.bookmarks = false`; an explicitly-set `false` is serialized and
never treated as unset. -/
theorem explicit_false_bookmarks_serialized (r : RenderRequest) :
    lookupIn (buildPayload (r.PdfBookmarks false)) ("pdf") ("bookmarks")
      = some (.jbool false)
  ∧ (lookup (buildPayload (r.PdfBookmarks false)) ("pdf")).isSome = true := by
  refine ⟨payload_pdf_bookmarks _, ?_⟩
  rw [payload_pdf_isSome]
  simp [pdfTouched, RenderRequest.PdfBookmarks]

/-- Claim C8: `NewClient` strips all trailing slash characters of the
base address, so `http://host:3000/` and `http://host:3000` yield
identical render and health URLs, and the normalized base never ends in
a separator. -/
theorem base_url_normalization (base : String) :
    renderEndpoint (NewClient (base ++ "/")) = renderEndpoint (NewClient base)
  ∧ healthEndpoint (NewClient (base ++ "/")) = healthEndpoint (NewClient base)
  ∧ endsWithSlash (NewClient base).baseURL = false
  ∧ NewClient ("http://host:3000/") = NewClient ("http://host:3000") := by
  refine ⟨?_, ?_, endsWithSlash_strip base, rfl⟩
  · simp [renderEndpoint, NewClient, strip_append_slash]
  · simp [healthEndpoint, NewClient, strip_append_slash]

/-- Claim C10: calling `Format` with the empty string is
indistinguishable from never calling `Format`: the payload's `format`
is `"pdf"` in both cases, since `format` is tracked by an empty-string
sentinel rather than a pointer. -/
theorem empty_format_indistinguishable (r : RenderRequest) (h u : String) :
    RenderRequest.Format (renderHTML h) "" = renderHTML h
  ∧ RenderRequest.Format (renderURL u) "" = renderURL u
  ∧ buildPayload (r.Format "") = buildPayload { r with format := "" }
  ∧ lookup (buildPayload (r.Format "")) ("format") = some (.jstr ("pdf"))
  ∧ lookup (buildPayload (renderHTML h)) ("format") = some (.jstr ("pdf")) :=
  ⟨rfl, rfl, rfl, lookup_format _, lookup_format _⟩

/-- Claim C6: repeated `PdfBarcode` / `PdfBarcodeWith` and `PdfAttach`
calls append entries in call order, and the payload's `pdf.barcodes`
and `pdf.embedded_files` arrays list the entries in exactly that order,
each entry containing beyond its required fields only the explicitly
set optional sub-fields. -/
theorem append_order_and_optional_subfields (r : RenderRequest)
    (t d path data : String) (cfg c1 c2 : BarcodeConfig)
    (opts : List (EmbeddedFile → EmbeddedFile)) :
    (r.PdfBarcode t d).pdfBarcodes = r.pdfBarcodes ++ [{ btype := t, data := d }]
  ∧ (r.PdfBarcodeWith cfg).pdfBarcodes = r.pdfBarcodes ++ [cfg]
  ∧ ((r.PdfBarcodeWith c1).PdfBarcodeWith c2).pdfBarcodes = r.pdfBarcodes ++ [c1, c2]
  ∧ (r.PdfAttach path data opts).pdfEmbeddedFiles
      = r.pdfEmbeddedFiles ++ [opts.foldl (fun ef opt => opt ef) { Path := path, Data := data }]
  ∧ lookupIn (buildPayload r) ("pdf") ("barcodes")
      = (if r.pdfBarcodes.isEmpty then none
         else some (.jarr (r.pdfBarcodes.map (fun bc =>
           .jobj ([("type", .jstr bc.btype), ("data", .jstr bc.data)] ++
             optEntry ("x") (bc.x.map .jnum) ++
             optEntry ("y") (bc.y.map .jnum) ++
             optEntry ("width") (bc.width.map .jnum) ++
             optEntry ("height") (bc.height.map .jnum) ++
             optEntry ("anchor") (bc.anchor.map .jstr) ++
             optEntry ("foreground") (bc.foreground.map .jstr) ++
             optEntry ("background") (bc.background.map .jstr) ++
             optEntry ("draw_background") (bc.drawBg.map .jbool) ++
             optEntry ("pages") (bc.pages.map .jstr))))))
  ∧ lookupIn (buildPayload r) ("pdf") ("embedded_files")
      = (if r.pdfEmbeddedFiles.isEmpty then none
         else some (.jarr (r.pdfEmbeddedFiles.map (fun ef =>
           .jobj ([("path", .jstr ef.Path), ("data", .jstr ef.Data)] ++
             (if ef.MimeType = "" then [] else [("mime_type", .jstr ef.MimeType)]) ++
             (if ef.Description = "" then [] else [("description", .jstr ef.Description)]) ++
             (if ef.Relationship = "" then []
              else [("relationship", .jstr ef.Relationship)])))))) := by
  refine ⟨rfl, rfl, ?_, rfl, payload_pdf_barcodes r, payload_pdf_embedded r⟩
  simp [RenderRequest.PdfBarcodeWith]

/-- Claim C1: each nested group key (`quantize`; `pdf`; and within
`pdf`: `watermark`, `signature`, `encryption`) appears in the payload
iff at least one member field of that group was explicitly set; a
present group contains exactly the explicitly-set member fields with
their set values, and no defaults are injected at the builder layer
except the top-level `format` default. -/
theorem group_presence_invariant (r : RenderRequest) :
    ((lookup (buildPayload r) ("quantize")).isSome
      = (r.colors.isSome || r.palette.isSome || r.dither.isSome))
  ∧ lookup (buildPayload r) ("quantize")
      = (if r.colors.isSome || r.palette.isSome || r.dither.isSome
         then some (.jobj (optEntry ("colors") (r.colors.map .jint) ++
           optEntry ("palette") (r.palette.map paletteJVal) ++
           optEntry ("dither") (r.dither.map .jstr)))
         else none)
  ∧ ((lookup (buildPayload r) ("pdf")).isSome
      = (r.pdfTitle.isSome || r.pdfAuthor.isSome || r.pdfSubject.isSome ||
         r.pdfKeywords.isSome || r.pdfCreator.isSome || r.pdfBookmarks.isSome ||
         r.pdfPageNumbers.isSome ||
         (r.pdfWatermarkText.isSome || r.pdfWatermarkImage.isSome ||
          r.pdfWatermarkOpacity.isSome || r.pdfWatermarkRotation.isSome ||
          r.pdfWatermarkColor.isSome || r.pdfWatermarkFontSize.isSome ||
          r.pdfWatermarkScale.isSome || r.pdfWatermarkLayer.isSome ||
          r.pdfWatermarkPages.isSome) ||
         r.pdfStandard.isSome || !r.pdfEmbeddedFiles.isEmpty || !r.pdfBarcodes.isEmpty ||
         r.pdfMode.isSome ||
         (r.pdfSignCertificate.isSome || r.pdfSignPassword.isSome ||
          r.pdfSignName.isSome || r.pdfSignReason.isSome || r.pdfSignLocation.isSome ||
          r.pdfSignTimestampUrl.isSome) ||
         (r.pdfUserPassword.isSome || r.pdfOwnerPassword.isSome ||
          r.pdfPermissions.isSome) ||
         r.pdfAccessibility.isSome || r.pdfLinearize.isSome))
  ∧ lookupIn (buildPayload r) ("pdf") ("watermark")
      = (if r.pdfWatermarkText.isSome || r.pdfWatermarkImage.isSome ||
            r.pdfWatermarkOpacity.isSome || r.pdfWatermarkRotation.isSome ||
            r.pdfWatermarkColor.isSome || r.pdfWatermarkFontSize.isSome ||
            r.pdfWatermarkScale.isSome || r.pdfWatermarkLayer.isSome ||
            r.pdfWatermarkPages.isSome
         then some (.jobj (optEntry ("text") (r.pdfWatermarkText.map .jstr) ++
           optEntry ("image_data") (r.pdfWatermarkImage.map .jstr) ++
           optEntry ("opacity") (r.pdfWatermarkOpacity.map .jnum) ++
           optEntry ("rotation") (r.pdfWatermarkRotation.map .jnum) ++
           optEntry ("color") (r.pdfWatermarkColor.map .jstr) ++
           optEntry ("font_size") (r.pdfWatermarkFontSize.map .jnum) ++
           optEntry ("scale") (r.pdfWatermarkScale.map .jnum) ++
           optEntry ("layer") (r.pdfWatermarkLayer.map .jstr) ++
           optEntry ("pages") (r.pdfWatermarkPages.map .jstr)))
         else none)
  ∧ lookupIn (buildPayload r) ("pdf") ("signature")
      = (if r.pdfSignCertificate.isSome || r.pdfSignPassword.isSome ||
            r.pdfSignName.isSome || r.pdfSignReason.isSome || r.pdfSignLocation.isSome ||
            r.pdfSignTimestampUrl.isSome
         then some (.jobj (optEntry ("certificate_data") (r.pdfSignCertificate.map .jstr) ++
           optEntry ("password") (r.pdfSignPassword.map .jstr) ++
           optEntry ("signer_name") (r.pdfSignName.map .jstr) ++
           optEntry ("reason") (r.pdfSignReason.map .jstr) ++
           optEntry ("location") (r.pdfSignLocation.map .jstr) ++
           optEntry ("timestamp_url") (r.pdfSignTimestampUrl.map .jstr)))
         else none)
  ∧ lookupIn (buildPayload r) ("pdf") ("encryption")
      = (if r.pdfUserPassword.isSome || r.pdfOwnerPassword.isSome ||
            r.pdfPermissions.isSome
         then some (.jobj (optEntry ("user_password") (r.pdfUserPassword.map .jstr) ++
           optEntry ("owner_password") (r.pdfOwnerPassword.map .jstr) ++
           optEntry ("permissions") (r.pdfPermissions.map .jstr)))
         else none)
  ∧ lookupIn (buildPayload r) ("quantize") ("colors") = r.colors.map .jint
  ∧ lookupIn (buildPayload r) ("quantize") ("palette") = r.palette.map paletteJVal
  ∧ lookupIn (buildPayload r) ("quantize") ("dither") = r.dither.map .jstr
  ∧ lookupIn (buildPayload r) ("pdf") ("title") = r.pdfTitle.map .jstr
  ∧ lookupIn (buildPayload r) ("pdf") ("author") = r.pdfAuthor.map .jstr
  ∧ lookupIn (buildPayload r) ("pdf") ("subject") = r.pdfSubject.map .jstr
  ∧ lookupIn (buildPayload r) ("pdf") ("keywords") = r.pdfKeywords.map .jstr
  ∧ lookupIn (buildPayload r) ("pdf") ("creator") = r.pdfCreator.map .jstr
  ∧ lookupIn (buildPayload r) ("pdf") ("bookmarks") = r.pdfBookmarks.map .jbool
  ∧ lookupIn (buildPayload r) ("pdf") ("page_numbers") = r.pdfPageNumbers.map .jbool
  ∧ lookupIn (buildPayload r) ("pdf") ("standard") = r.pdfStandard.map .jstr
  ∧ lookupIn (buildPayload r) ("pdf") ("mode") = r.pdfMode.map .jstr
  ∧ lookupIn (buildPayload r) ("pdf") ("accessibility") = r.pdfAccessibility.map .jstr
  ∧ lookupIn (buildPayload r) ("pdf") ("linearize") = r.pdfLinearize.map .jbool
  ∧ lookupIn (buildPayload r) ("pdf") ("embedded_files")
      = (if r.pdfEmbeddedFiles.isEmpty then none
         else some (.jarr (r.pdfEmbeddedFiles.map embeddedFileEntry)))
  ∧ lookupIn (buildPayload r) ("pdf") ("barcodes")
      = (if r.pdfBarcodes.isEmpty then none
         else some (.jarr (r.pdfBarcodes.map barcodeEntry)))
  ∧ lookup (buildPayload r) ("format")
      = some (.jstr (if r.format = "" then "pdf" else r.format)) :=
  ⟨payload_quantize_isSome r, lookup_quantize r, payload_pdf_isSome r,
   payload_pdf_watermark r, payload_pdf_signature r, payload_pdf_encryption r,
   payload_quantize_colors r, payload_quantize_palette r, payload_quantize_dither r,
   payload_pdf_title r, payload_pdf_author r, payload_pdf_subject r,
   payload_pdf_keywords r, payload_pdf_creator r, payload_pdf_bookmarks r,
   payload_pdf_pageNumbers r, payload_pdf_standard r, payload_pdf_mode r,
   payload_pdf_accessibility r, payload_pdf_linearize r,
   payload_pdf_embedded r, payload_pdf_barcodes r, lookup_format r⟩

end Forge
